import Mathlib

/-!
Verification development for a voice-driven retrieval-augmented QA server.

The definitions below are a shallow embedding of the Python sources
`src/server/server.py` and `src/server/server_faiss_semantic.py`.
Conventions used throughout:

* Python strings are modelled as Lean `String` / `List Char` (both count
  code points, as Python `len` does).
* Python byte strings are `List Nat` (each element a byte value).
* External effectful collaborators (the Whisper transcriber, the sentence
  embedder together with the FAISS index, the Ollama / transformers
  generators, the TTS backends, `random.choice`) are passed in as explicit
  function or value parameters; `Option`/`Except` model their
  success-or-exception outcomes.
* Similarity scores are Python floats in the source; they are modelled in
  fixed point as `Int` values counted in units of 10^-4 (the precision at
  which the code ever prints them, `%.4f`).  No claim below depends on
  float rounding behaviour.
* The character classes of Python's `re` module (`\s`, `\w`, `str.strip`,
  `str.lower`) are modelled by their ASCII parts, which cover every string
  the program manipulates.
-/

/-! ## Character and string helpers (Python semantics) -/

/-- ASCII part of the whitespace class used by Python's `str.strip()` and by
the regex class `\s`: space, tab, newline, carriage return, vertical tab,
form feed. -/
def isPySpace (c : Char) : Bool :=
  c = ' ' || c = '\t' || c = '\n' || c = '\r' || c = '\x0b' || c = '\x0c'

/-- Python `str.strip()` on a character list. -/
def pyStripList (cs : List Char) : List Char :=
  ((cs.dropWhile isPySpace).reverse.dropWhile isPySpace).reverse

/-- Python `str.strip()`. -/
def pyStripStr (s : String) : String :=
  String.mk (pyStripList s.data)

/-- Python `str.lower()` (ASCII part). -/
def pyLowerStr (s : String) : String :=
  String.mk (s.data.map Char.toLower)

/-- Python's substring test `needle in hay`. -/
def containsSub (hay needle : List Char) : Bool :=
  needle.isPrefixOf hay ||
    match hay with
    | [] => false
    | _ :: rest => containsSub rest needle

/-- Case-insensitive comparison of one character against a lowercase target. -/
def charCI (c target : Char) : Bool :=
  c.toLower = target

/-- ASCII part of the regex word class `\w`, used for `\b` boundaries. -/
def isWordChar (c : Char) : Bool :=
  c.isAlpha || c.isDigit || c = '_'

/-- Python list slicing `s[:n]` on strings. -/
def strTake (s : String) (n : Nat) : String :=
  String.mk (s.data.take n)

/-- Python `str.replace(pat, repl)` (all non-overlapping occurrences, left to
right); `fuel` bounds the recursion and is instantiated with the input
length, which suffices because every step consumes at least one character. -/
def replaceAll (pat repl : List Char) : Nat → List Char → List Char
  | 0, cs => cs
  | _ + 1, [] => []
  | fuel + 1, c :: rest =>
    if pat.isPrefixOf (c :: rest) then
      repl ++ replaceAll pat repl fuel ((c :: rest).drop pat.length)
    else
      c :: replaceAll pat repl fuel rest

/-! ## `clean_response_text` (server.py lines 205-242)

Each `re.sub(pattern, " ", text)` call is modelled by a left-to-right
scanner: at each position it attempts the (deterministic) match for the
given pattern; on success it emits the replacement and resumes after the
matched span, otherwise it copies one character.  Each matcher returns the
remainder of the input after the matched span.  All patterns start with a
literal character, so every scanner step consumes at least one input
character and length-many fuel suffices. -/

/-- Matcher for `\[id=\s*\d+\s*\]` at the head of the input. -/
def tryBracketId : List Char → Option (List Char)
  | '[' :: 'i' :: 'd' :: '=' :: rest =>
    let r1 := rest.dropWhile isPySpace
    if (r1.takeWhile Char.isDigit).isEmpty then none
    else
      match (r1.dropWhile Char.isDigit).dropWhile isPySpace with
      | ']' :: r => some r
      | _ => none
  | _ => none

/-- Matcher for the regex fragment `\d*\.?\d+` (maximal munch; matches the
backtracking behaviour of the Python engine on this fragment). -/
def tryNumTail (cs : List Char) : Option (List Char) :=
  let d1 := cs.takeWhile Char.isDigit
  let r1 := cs.dropWhile Char.isDigit
  match r1 with
  | '.' :: r2 =>
    if (r2.takeWhile Char.isDigit).isEmpty then
      if d1.isEmpty then none else some r1
    else some (r2.dropWhile Char.isDigit)
  | _ => if d1.isEmpty then none else some r1

/-- Matcher for the optional group `\s*,\s*score\s*=\s*[-+]?\d*\.?\d+`
(case-insensitive on `score`). -/
def tryScoreGroup (cs : List Char) : Option (List Char) :=
  match cs.dropWhile isPySpace with
  | ',' :: r2 =>
    match r2.dropWhile isPySpace with
    | c1 :: c2 :: c3 :: c4 :: c5 :: r4 =>
      if charCI c1 's' && charCI c2 'c' && charCI c3 'o' && charCI c4 'r' && charCI c5 'e' then
        match r4.dropWhile isPySpace with
        | '=' :: r6 =>
          let r7 := r6.dropWhile isPySpace
          let r8 := match r7 with
            | '-' :: t => t
            | '+' :: t => t
            | _ => r7
          tryNumTail r8
        | _ => none
      else none
    | _ => none
  | _ => none

/-- Matcher for `\(id=\s*\d+(?:\s*,\s*score\s*=\s*[-+]?\d*\.?\d+)?\s*\)`
with `re.IGNORECASE`.  If the optional score group matches, the characters
after the first digit run begin with `,`, and the group-free continuation
would require `)` there, so no backtracking across the group is needed. -/
def tryParenId : List Char → Option (List Char)
  | '(' :: a :: b :: '=' :: rest =>
    if charCI a 'i' && charCI b 'd' then
      let r1 := rest.dropWhile isPySpace
      if (r1.takeWhile Char.isDigit).isEmpty then none
      else
        let r2 := r1.dropWhile Char.isDigit
        let r3 := (tryScoreGroup r2).getD r2
        match r3.dropWhile isPySpace with
        | ')' :: r => some r
        | _ => none
    else none
  | _ => none

/-- Matcher for `id\s*=\s*\d+\b` (the leading `\b` is checked by the caller,
which tracks whether the preceding original character was a word
character).  The trailing `\b` holds exactly when the character after the
greedy digit run is absent or not a word character. -/
def tryBareId : List Char → Option (List Char)
  | 'i' :: 'd' :: rest =>
    match rest.dropWhile isPySpace with
    | '=' :: r2 =>
      let r3 := r2.dropWhile isPySpace
      if (r3.takeWhile Char.isDigit).isEmpty then none
      else
        match r3.dropWhile Char.isDigit with
        | [] => some []
        | c :: r4 => if isWordChar c then none else some (c :: r4)
    | _ => none
  | _ => none

/-- Matcher for `\[\s*\]`. -/
def tryEmptyBracket : List Char → Option (List Char)
  | '[' :: rest =>
    match rest.dropWhile isPySpace with
    | ']' :: r => some r
    | _ => none
  | _ => none

/-- Matcher for `\(\s*\)`. -/
def tryEmptyParen : List Char → Option (List Char)
  | '(' :: rest =>
    match rest.dropWhile isPySpace with
    | ')' :: r => some r
    | _ => none
  | _ => none

/-- Generic `re.sub(pattern, " ", ...)` scanner for a matcher without
boundary conditions. -/
def subScan (try1 : List Char → Option (List Char)) : Nat → List Char → List Char
  | 0, cs => cs
  | _ + 1, [] => []
  | fuel + 1, c :: rest =>
    match try1 (c :: rest) with
    | some rem => ' ' :: subScan try1 fuel rem
    | none => c :: subScan try1 fuel rest

/-- Scanner for `re.sub(r"\bid\s*=\s*\d+\b", " ", ...)`.  The Boolean
argument records whether the previous character of the original text is a
word character (false at the start of the string); every matched span ends
in a digit, so after a replacement it is true. -/
def subScanBareId : Nat → Bool → List Char → List Char
  | 0, _, cs => cs
  | _ + 1, _, [] => []
  | fuel + 1, prevWord, c :: rest =>
    match (if prevWord then none else tryBareId (c :: rest)) with
    | some rem => ' ' :: subScanBareId fuel true rem
    | none => c :: subScanBareId fuel (isWordChar c) rest

/-- `re.sub(r"\n{3,}", "\n\n", ...)`: collapse runs of three or more
newlines to exactly two. -/
def collapseNewlines : Nat → List Char → List Char
  | 0, cs => cs
  | _ + 1, [] => []
  | fuel + 1, c :: rest =>
    if c = '\n' then
      if 2 ≤ (rest.takeWhile (fun d => d = '\n')).length then
        '\n' :: '\n' :: collapseNewlines fuel (rest.dropWhile (fun d => d = '\n'))
      else c :: collapseNewlines fuel rest
    else c :: collapseNewlines fuel rest

/-- Horizontal whitespace for `[ \t]{2,}`. -/
def isBlank (c : Char) : Bool :=
  c = ' ' || c = '\t'

/-- `re.sub(r"[ \t]{2,}", " ", ...)`: collapse runs of two or more spaces
or tabs to one space (a run of length one is kept verbatim). -/
def collapseBlanks : Nat → List Char → List Char
  | 0, cs => cs
  | _ + 1, [] => []
  | fuel + 1, c :: rest =>
    if isBlank c then
      if (rest.takeWhile isBlank).isEmpty then c :: collapseBlanks fuel rest
      else ' ' :: collapseBlanks fuel (rest.dropWhile isBlank)
    else c :: collapseBlanks fuel rest

/-- First index at or after `pos` where `needle` occurs in the given list
(the list is the original hay with its first `pos` characters dropped). -/
def findIdxAux (needle : List Char) : List Char → Nat → Option Nat
  | [], pos => if needle.isEmpty then some pos else none
  | c :: rest, pos =>
    if needle.isPrefixOf (c :: rest) then some pos
    else findIdxAux needle rest (pos + 1)

/-- Last index at or after `pos` where `needle` occurs; `best` carries the
best index found so far. -/
def findLastAux (needle : List Char) : List Char → Nat → Option Nat → Option Nat
  | [], _, best => best
  | c :: rest, pos, best =>
    findLastAux needle rest (pos + 1)
      (if needle.isPrefixOf (c :: rest) then some pos else best)

/-- `re.sub(r"CONTEXT:.*USER QUERY:.*Answer:", "", ..., flags=DOTALL|IGNORECASE)`.
With both `.*` greedy, the single possible match runs from the first
(case-insensitive) `CONTEXT:` to the end of the last `Answer:` that is
preceded by a `USER QUERY:` lying after that `CONTEXT:`; no second match
can exist after it because no `Answer:` remains. -/
def removeScaffold (cs : List Char) : List Char :=
  let low := cs.map Char.toLower
  match findIdxAux ("context:".data) low 0 with
  | none => cs
  | some c =>
    match findIdxAux ("user query:".data) (low.drop (c + 8)) (c + 8) with
    | none => cs
    | some u =>
      match findLastAux ("answer:".data) (low.drop (u + 11)) (u + 11) none with
      | none => cs
      | some a => cs.take c ++ cs.drop (a + 7)

/-- The substitution pipeline of `clean_response_text` (server.py 205-242)
applied to a non-empty text, pass by pass in source order. -/
def cleanPipeline (cs : List Char) : List Char :=
  let s1 := subScan tryBracketId cs.length cs
  let s2 := subScan tryParenId s1.length s1
  let s3 := subScanBareId s2.length false s2
  let s4 := subScan tryEmptyBracket s3.length s3
  let s5 := subScan tryEmptyParen s4.length s4
  let s6 := s5.map (fun c => if c = '*' then ' ' else c)
  let s7 := collapseNewlines s6.length s6
  let s8 := collapseBlanks s7.length s7
  let s9 := pyStripList s8
  pyStripList (removeScaffold s9)

/-- `clean_response_text` (server.py lines 205-242).  An empty (falsy) text
is returned unchanged. -/
def clean_response_text (s : String) : String :=
  if s = "" then s else String.mk (cleanPipeline s.data)


/-! ## Prompt composition (`make_prompt`, server.py lines 136-171) -/

/-- Zero-pad a natural number to four digits (fractional part of `%.4f`). -/
def pad4 (n : Nat) : String :=
  let s := toString n
  if 4 ≤ s.length then s else String.mk (List.replicate (4 - s.length) '0') ++ s

/-- Python `f"{score:.4f}"` on a score held in fixed point (units of
10^-4). -/
def fmtScore (s : Int) : String :=
  (if s < 0 then "-" else "") ++ toString (s.natAbs / 10000) ++ "." ++ pad4 (s.natAbs % 10000)

/-- One formatted context entry,
`f"(id={idx}, score={score:.4f})\n{txt.strip()}\n---\n"`. -/
def entryString (idx : Nat) (score : Int) (txt : String) : String :=
  "(id=" ++ toString idx ++ ", score=" ++ fmtScore score ++ ")\n" ++ pyStripStr txt ++ "\n---\n"

/-- The accumulation loop of `make_prompt`: `total` is the running
`total_len`; an entry whose formatted length pushes the running total past
`maxC` stops the loop before being appended (`if total_len >
max_context_chars: break`). -/
def accumGo : List (Nat × Int × String) → Nat → Nat → List String
  | [], _, _ => []
  | (i, s, t) :: rest, total, maxC =>
    let entry := entryString i s t
    let total' := total + entry.length
    if maxC < total' then [] else entry :: accumGo rest total' maxC

/-- The list `context_parts` built by `make_prompt`. -/
def contextEntries (retrieved : List (Nat × Int × String)) (maxContextChars : Nat) : List String :=
  accumGo retrieved 0 maxContextChars

/-- The static instruction block of `make_prompt`, verbatim. -/
def instructionText : String :=
  "You are an assistant who answers *with reference to the Bhagavad Gita*.\n\nGUIDELINES:\n1. Use only the verses provided in the CONTEXT.\n   - Treat CONTEXT as the sole knowledge source for Gita references.\n   - Do not invent or recall verses outside the given IDs.\n\n2. Citations:\n   - When basing any part of your answer on a verse, include an inline citation in this exact format: (id=XYZ).\n   - If summarizing multiple verses, cite each relevant id, it would be preferable to give chapter number and verse number as well in the beginning before referencing that to the answer to solution.\n\n3. Quoting:\n   - Keep direct quotes short (a phrase or line).\n   - Prefer paraphrasing + explanation over long copy-pastes.\n\n4. Style of Answer:\n   - Provide clear, decently detailed explanations in under 120 words.\n   - Show how the verse connects to the user’s question (very very important).\n   - Encourage and guide the user in understanding, without being preachy. \n\n5. Boundaries:\n   - Do not fabricate chapter/verse numbers.\n   - Do not rely on outside knowledge — only use the given CONTEXT."

/-- `make_prompt` (server.py lines 136-171).  Retrieved entries are
`(id, score, text)` triples; the budget is a character count. -/
def make_prompt (query : String) (retrieved : List (Nat × Int × String))
    (maxContextChars : Nat) : String :=
  let context := String.intercalate "\n" (contextEntries retrieved maxContextChars)
  instructionText ++ "\n\nCONTEXT:\n" ++ context ++ "\nUSER QUERY:\n" ++ query ++ "\n\nAnswer:"

/-- Total length of a list of strings. -/
def sumLens (l : List String) : Nat :=
  (l.map String.length).sum

/-! ## Retrieval (`retrieve`, server.py lines 124-134)

The sentence embedder plus the FAISS index are one external black box
`searchFn : query → top_k → list of (position, score)` standing for
`zip(indices[0], distances[0])`; positions are signed because FAISS pads
missing neighbours with `-1`. -/

/-- The result loop of `retrieve`: keep `(int(idx), score, texts_list[idx])`
for the hits with `0 <= idx < len(texts_list)`. -/
def retrieveFilter (textsList : List String) (hits : List (Int × Int)) :
    List (Nat × Int × String) :=
  hits.filterMap fun p =>
    if 0 ≤ p.1 then (textsList.get? p.1.toNat).map (fun t => (p.1.toNat, p.2, t)) else none

/-- `retrieve` (server.py lines 124-134). -/
def retrieve (query : String) (searchFn : String → Nat → List (Int × Int))
    (textsList : List String) (topK : Nat) : List (Nat × Int × String) :=
  if query = "" || pyStripStr query = "" then []
  else retrieveFilter textsList (searchFn query topK)

/-! ## Generation (`safe_generate`, server.py lines 189-202) -/

/-- The fixed apology returned when every generation backend fails. -/
def apologyText : String :=
  "I\x27m sorry — the language model is currently unavailable."

/-- `safe_generate` (server.py lines 189-202): try Ollama when it is
importable, then the transformers fallback; `none` models a raised
exception inside a backend. -/
def safe_generate (hasOllama : Bool) (ollamaRes transformersRes : Option String) : String :=
  match (if hasOllama then ollamaRes else none) with
  | some s => s
  | none =>
    match transformersRes with
    | some s => s
    | none => apologyText

/-! ## Speech synthesis (`generate_tts_audio`, server.py lines 342-404) -/

/-- `generate_tts_audio` (server.py lines 342-404).  `piperRes` is the
outcome of the Piper attempt (`none` covers a failed import, failed voice
initialization and raised exceptions; Piper output that is falsy, i.e.
empty, also falls through).  `pyRes` and `sapiRes` are the pyttsx3 and
Windows SAPI outcomes. -/
def generate_tts_audio (preferred : String) (hasPiper : Bool)
    (piperRes pyRes sapiRes : Option (List Nat)) : Option (List Nat) :=
  let piperOut : Option (List Nat) :=
    if preferred = "piper" && hasPiper then
      match piperRes with
      | some w => if w.isEmpty then none else some w
      | none => none
    else none
  match piperOut with
  | some w => some w
  | none =>
    match pyRes with
    | some d => some d
    | none => sapiRes

/-! ## The `/process_audio` endpoint of server.py (lines 411-517) -/

/-- Little-endian signed 16-bit decoding of one sample. -/
def int16OfLE (lo hi : Nat) : Int :=
  let u := lo + 256 * hi
  if u < 32768 then (u : Int) else (u : Int) - 65536

/-- Decode consecutive byte pairs as little-endian int16 samples. -/
def decodeInt16LE : List Nat → List Int
  | lo :: hi :: rest => int16OfLE lo hi :: decodeInt16LE rest
  | _ => []

/-- `np.frombuffer(dtype=np.int16)`: raises (`none`) unless the byte count
is a multiple of the element size. -/
def frombufferInt16 (bytes : List Nat) : Option (List Int) :=
  if bytes.length % 2 = 0 then some (decodeInt16LE bytes) else none

/-- The error message assembled when both transcription paths fail. -/
def transcribeMessage (eDirect eFile : String) : String :=
  "Transcription failed. If this mentions ffmpeg or WinError 2, please install ffmpeg and ensure it is on PATH. Direct error: " ++ eDirect ++ "; file error: " ++ eFile

/-- The transcription step: direct numpy transcription first, then the
temporary-WAV fallback; both failing is a hard failure whose message
embeds both exception texts. -/
def transcribeStep (direct file : Except String String) : Except String String :=
  match direct with
  | .ok t => .ok t
  | .error eD =>
    match file with
    | .ok t => .ok t
    | .error eF => .error (transcribeMessage eD eF)

/-- Hex digit characters for `bytes.hex()`. -/
def hexDigit (n : Nat) : Char :=
  "0123456789abcdef".data.getD n 'x'

/-- Python `bytes.hex()`. -/
def bytesToHex (bs : List Nat) : String :=
  String.mk ((bs.map (fun b => [hexDigit (b / 16 % 16), hexDigit (b % 16)])).flatten)

/-- `tts_bytes.hex() if tts_bytes else None`: empty byte strings are falsy
and also yield null. -/
def audioHexOpt : Option (List Nat) → Option String
  | some b => if b.isEmpty then none else some (bytesToHex b)
  | none => none

/-- The human-readable summary block built by `/process_audio`. -/
def formattedSummary (responseText : String) (retrieved : List (Nat × Int × String)) : String :=
  let base := "=== AI Response ===\n" ++ pyStripStr responseText ++ "\n\n"
  if retrieved.isEmpty then base ++ "(No verses retrieved.)\n"
  else
    base ++ "=== Top Source Verse(s) ===\n" ++
      String.join ((retrieved.take 5).map
        (fun p => "\n(id=" ++ toString p.1 ++ ", score=" ++ fmtScore p.2.1 ++ ")\n" ++ p.2.2 ++ "\n---\n"))

/-- JSON body and status code returned by `/process_audio` in server.py. -/
structure MainResult where
  status : Nat
  error : Option String
  transcription : Option String
  response : Option String
  responseRaw : Option String
  formattedResponse : Option String
  audio : Option String
deriving DecidableEq, Repr

/-- `/process_audio` (server.py lines 411-517).  External collaborators are
parameters: the two transcription attempts, the generation backends (as
functions of the prompt, `none` modelling a raised exception), the
embedder-plus-index search, and the three TTS backends (as functions of
the spoken text).  `CHANNELS` is 1, so the multi-channel reshape is a
no-op.  The float32 normalization `audio_int16 / 32768.0` feeds the
external transcriber and is absorbed into its parameter. -/
def processAudioMain (modelsLoaded : Bool) (audioBytes : List Nat)
    (direct file : Except String String)
    (hasOllama : Bool) (ollamaGen transformersGen : String → Option String)
    (searchFn : String → Nat → List (Int × Int)) (textsList : List String)
    (hasPiper : Bool) (piperTts pyTts sapiTts : String → Option (List Nat)) : MainResult :=
  if !modelsLoaded then
    ⟨503, some "Models not loaded on server.", none, none, none, none, none⟩
  else if audioBytes.isEmpty then
    ⟨400, some "No audio data received", none, none, none, none, none⟩
  else
    match frombufferInt16 audioBytes with
    | none => ⟨400, some "Failed to parse int16 audio bytes", none, none, none, none, none⟩
    | some _samples =>
      match transcribeStep direct file with
      | .error msg => ⟨500, some msg, none, none, none, none, none⟩
      | .ok t =>
        let transcribed := pyStripStr t
        let retrieved := retrieve transcribed searchFn textsList 5
        let prompt := make_prompt transcribed retrieved 2000
        let raw := safe_generate hasOllama (ollamaGen prompt) (transformersGen prompt)
        let response := clean_response_text raw
        let formatted := formattedSummary response retrieved
        let ttsBytes := generate_tts_audio "piper" hasPiper
          (piperTts response) (pyTts response) (sapiTts response)
        ⟨200, none, some transcribed, some response, some raw, some formatted,
          audioHexOpt ttsBytes⟩

/-! ## The `/health` endpoint of server.py (lines 407-409) -/

/-- The process-wide model handles of server.py that a turn needs
(`whisper_model`, `embedder`, `faiss_index`); each flag records whether the
handle is non-None. -/
structure ServerModels where
  whisperLoaded : Bool
  embedderLoaded : Bool
  faissIndexLoaded : Bool
deriving DecidableEq, Repr

/-- The `models_loaded` field of the `/health` response:
`whisper_model is not None`. -/
def healthModelsLoaded (s : ServerModels) : Bool :=
  s.whisperLoaded

/-- Modelled from the spec's words for comparison: "all models required to
serve a turn (transcriber, embedding encoder, vector index) have been
initialized". -/
def specAllModelsLoaded (s : ServerModels) : Bool :=
  s.whisperLoaded && s.embedderLoaded && s.faissIndexLoaded

/-! ## server_faiss_semantic.py: conversation control and data -/

/-- `EXIT_PHRASES` (server_faiss_semantic.py line 56). -/
def EXIT_PHRASES : List String :=
  ["thank you", "thanks", "that\x27s all", "nothing else", "goodbye"]

/-- `FOLLOW_UP_PHRASES` (server_faiss_semantic.py lines 57-62). -/
def FOLLOW_UP_PHRASES : List String :=
  ["Is there anything else I can help you with?",
   "Would you like to explore this teaching further?",
   "Any other spiritual questions?",
   "Would you like more guidance on this topic?"]

/-- The fixed farewell text of the exit path (line 403). -/
def farewellText : String :=
  "🙏 Thank you for seeking Gita wisdom. May you find peace and fulfillment on your spiritual journey. Om Shanti!"

/-- One row of the Gita dataframe: the verse translation plus the chapter
columns (used only when the table has them). -/
structure GitaRow where
  translation : String
  chapterNumber : String
  chapterVerse : String
deriving DecidableEq, Repr

/-- One retrieval result dict of `find_relevant_verses`. -/
structure VerseResult where
  verse : String
  similarity : Int
  chapterInfo : String
  rank : Nat
deriving DecidableEq, Repr

/-- The five hard-coded verses of `get_fallback_verses` (lines 246-252). -/
def fallbackVerses : List String :=
  ["You have the right to perform your actions, but you are not entitled to the fruits of your actions. Never let the fruits of action be your motive, nor let your attachment be to inaction.",
   "For the soul there is neither birth nor death. It is not slain when the body is slain. The soul is unborn, eternal, permanent, and primeval.",
   "Better is your own dharma, though imperfectly performed, than the dharma of another well performed. Better is death in the performance of one\x27s own dharma; the dharma of another is fraught with danger.",
   "When meditation is mastered, the mind is unwavering like the flame of a lamp in a windless place.",
   "Whatever you do, whatever you eat, whatever you offer in sacrifice, whatever you give away, whatever austerities you practice - do that as an offering to the Divine."]

/-- `get_fallback_verses` (lines 244-254); `choice` stands for the
`random.choice` draw, reduced modulo the list length. -/
def get_fallback_verses (choice : Nat) : List VerseResult :=
  [{ verse := fallbackVerses.getD (choice % 5) "", similarity := 5000,
     chapterInfo := "", rank := 1 }]

/-- The `intents` keyword table of `understand_question_intent`
(lines 260-271), in source (insertion) order. -/
def intentsTable : List (String × List String) :=
  [("tiredness_laziness", ["lazy", "tired", "fatigue", "exhausted", "unmotivated", "lethargy", "energy", "motivation", "procrastination", "weakness"]),
   ("sadness_depression", ["sad", "sadness", "depressed", "depression", "sorrow", "grief", "unhappy", "melancholy", "down", "blue", "hopeless"]),
   ("fear_anxiety", ["fear", "afraid", "scared", "anxiety", "anxious", "worry", "worried", "panic", "nervous", "frightened", "terror"]),
   ("life_purpose", ["purpose", "meaning", "direction", "path", "calling", "destiny", "goal", "mission", "dharma", "why am i here", "what should i do"]),
   ("anger_conflict", ["angry", "anger", "mad", "furious", "conflict", "fight", "argument", "frustrated", "rage", "hate", "resentment"]),
   ("attachment_loss", ["attachment", "loss", "lost", "letting go", "detachment", "possession", "clinging", "breakup", "death", "separation"]),
   ("doubt_confusion", ["doubt", "confused", "confusion", "uncertain", "unsure", "lost", "decision", "choice", "dilemma"]),
   ("spiritual_practice", ["meditation", "prayer", "devotion", "worship", "spiritual", "enlightenment", "moksha", "liberation"]),
   ("relationships", ["relationship", "love", "family", "friends", "marriage", "parents", "children", "society"]),
   ("work_duty", ["work", "job", "career", "duty", "responsibility", "service", "profession", "business"])]

/-- `understand_question_intent` (lines 256-281): returns the primary
intent (first detected, else "general") and all detected intents. -/
def understand_question_intent (query : String) : String × List String :=
  let ql := (pyLowerStr query).data
  let detected :=
    (intentsTable.filter (fun p => p.2.any (fun kw => containsSub ql kw.data))).map (·.1)
  (detected.headD "general", detected)

/-- Pandas `.iloc[idx]` indexing with Python negative-index wrapping;
`none` models an `IndexError`. -/
def pyIloc (rows : List GitaRow) (idx : Int) : Option GitaRow :=
  if 0 ≤ idx then rows.get? idx.toNat
  else if 0 ≤ idx + rows.length then rows.get? (idx + rows.length).toNat
  else none

/-- The result loop of `find_relevant_verses` (lines 215-236) over
`enumerate(zip(similarities[0], indices[0]))`; the counter `i` advances on
every iteration, including skipped out-of-range positions; `none` models
an exception escaping the loop (caught by the enclosing `try`). -/
def buildVerseResults (rows : List GitaRow) (hasChapterCols : Bool) :
    Nat → List (Int × Int) → Option (List VerseResult)
  | _, [] => some []
  | i, (sim, idx) :: rest =>
    if idx < (rows.length : Int) then
      match pyIloc rows idx with
      | none => none
      | some row =>
        let chInfo :=
          if hasChapterCols then " (" ++ row.chapterNumber ++ ", " ++ row.chapterVerse ++ ")"
          else ""
        match buildVerseResults rows hasChapterCols (i + 1) rest with
        | none => none
        | some rs =>
          some ({ verse := row.translation, similarity := sim, chapterInfo := chInfo,
                  rank := i + 1 } :: rs)
    else buildVerseResults rows hasChapterCols (i + 1) rest

/-- `find_relevant_verses` (lines 197-242).  `faissAvailable` is
`all([faiss_index, sentence_model, gita_data is not None])`; `faissSearch`
is the embedder-plus-index black box returning the zipped
`(similarity, index)` pairs, `none` modelling a raised exception; any
failure falls back to `get_fallback_verses`. -/
def find_relevant_verses (faissAvailable : Bool)
    (faissSearch : String → Nat → Option (List (Int × Int)))
    (rows : List GitaRow) (hasChapterCols : Bool) (fallbackChoice : Nat)
    (query : String) (topK : Nat) : List VerseResult :=
  if !faissAvailable then get_fallback_verses fallbackChoice
  else
    match faissSearch query topK with
    | none => get_fallback_verses fallbackChoice
    | some hits =>
      match buildVerseResults rows hasChapterCols 0 hits with
      | none => get_fallback_verses fallbackChoice
      | some rs => rs

/-- The `intent_context` table of `generate_contextual_response`
(lines 295-306). -/
def intentContextTable : List (String × String) :=
  [("tiredness_laziness", "Krishna teaches that laziness comes from attachment to results and fear of failure. The solution is not inaction, but action without attachment."),
   ("sadness_depression", "The Gita reminds us that our true nature is the eternal soul, beyond all temporary sorrows. This wisdom brings lasting peace."),
   ("fear_anxiety", "Fear arises from the illusion of separateness. When you realize your connection to the Divine, fear naturally dissolves."),
   ("life_purpose", "Your dharma (life purpose) is unique to your nature and circumstances. The Gita guides you to discover and follow your authentic path."),
   ("anger_conflict", "Anger clouds judgment and leads to poor decisions. The Gita teaches emotional mastery through spiritual understanding."),
   ("attachment_loss", "Attachment to temporary things causes suffering. True joy comes from loving without possessing and giving without expecting."),
   ("doubt_confusion", "When confused, seek wisdom from sacred texts and wise teachers. The Divine guides those who sincerely seek truth."),
   ("spiritual_practice", "Regular spiritual practice purifies the mind and reveals your true nature. Consistency is more important than intensity."),
   ("relationships", "See the Divine in all beings. Love unconditionally, serve selflessly, and maintain your inner peace regardless of others\x27 actions."),
   ("work_duty", "Perform your work as worship. Excellence in action, without attachment to results, leads to both success and spiritual growth.")]

/-- `generate_contextual_response` (lines 283-325). -/
def generate_contextual_response (query : String) (verseResults : List VerseResult)
    (intent : String) : String :=
  match verseResults with
  | [] =>
    "The Bhagavad Gita teaches us that all suffering comes from ignorance of our true nature. Seek wisdom through righteous action, devotion, and self-knowledge."
  | best :: rest =>
    let verseText := best.verse
    let chapterInfo := best.chapterInfo
    let context :=
      (((intentContextTable.find? (fun p => p.1 = intent)).map (·.2)).getD
        "The eternal wisdom of the Gita provides guidance for all of life\x27s challenges.")
    let response :=
      "🙏 **Krishna\x27s Guidance:**\n\n**Verse" ++ chapterInfo ++ ":** \"" ++
        strTake verseText 300 ++ (if 300 < verseText.length then "..." else "") ++
        "\"\n\n**Understanding:** " ++ context ++
        "\n\n**Practical Application:** Focus on your sincere effort rather than worrying about outcomes. Every step taken with devotion and wisdom brings you closer to peace and fulfillment."
    match rest with
    | second :: _ =>
      if 7000 < second.similarity then
        response ++ "\n\n**Related Teaching:** \"" ++ strTake second.verse 200 ++ "...\""
      else response
    | [] => response

/-- The text cleanup inside `synthesize_speech` (lines 336-342): drop
markup and emoji, strip, and truncate to 1000 characters plus an
ellipsis. -/
def ttsCleanText (text : String) : String :=
  let l0 := text.data
  let l1 := replaceAll "**".data [] l0.length l0
  let l2 := replaceAll "🙏".data [] l1.length l1
  let l3 := replaceAll "*".data [] l2.length l2
  let l4 := replaceAll "📖".data [] l3.length l3
  let l5 := replaceAll "✅".data [] l4.length l4
  let l6 := pyStripList l5
  if 1000 < l6.length then String.mk (l6.take 1000) ++ "..." else String.mk l6

/-- `synthesize_speech` (lines 327-360): unavailable voice or a raised
Piper exception yields `none`; otherwise the external Piper synthesis runs
on the cleaned text. -/
def synthesize_speech (hasPiperVoice : Bool)
    (piperSynth : String → Option (List Nat)) (text : String) : Option (List Nat) :=
  if !hasPiperVoice then none
  else piperSynth (ttsCleanText text)

/-- Odd-length request bodies are trimmed by one byte before decoding
(lines 387-388: `if len(audio_data) % 2 != 0: audio_data = audio_data[:-1]`). -/
def trimOddByte (bytes : List Nat) : List Nat :=
  if bytes.length % 2 ≠ 0 then bytes.dropLast else bytes

/-- JSON body and status code returned by `/process_audio` in
server_faiss_semantic.py. -/
structure FSResult where
  status : Nat
  error : Option String
  transcription : Option String
  response : Option String
  audio : Option String
  endConversation : Option Bool
  intent : Option String
  verseCount : Option Nat
deriving DecidableEq, Repr

/-- The post-transcription part of `/process_audio`
(server_faiss_semantic.py lines 399-427): exit-phrase check, then either
the farewell or the intent/retrieval/generation path, then TTS.
`followChoice` stands for the `random.choice` draw over
`FOLLOW_UP_PHRASES`. -/
def fsTurn (transcription : String) (faissAvailable : Bool)
    (faissSearch : String → Nat → Option (List (Int × Int)))
    (gitaRows : List GitaRow) (hasChapterCols : Bool)
    (fallbackChoice followChoice : Nat)
    (hasPiperVoice : Bool) (piperSynth : String → Option (List Nat)) : FSResult :=
  let endConv :=
    EXIT_PHRASES.any (fun p => containsSub (pyLowerStr transcription).data p.data)
  if endConv then
    let responseText := farewellText
    let audioBytes := synthesize_speech hasPiperVoice piperSynth responseText
    ⟨200, none, some transcription, some responseText, audioHexOpt audioBytes,
      some true, some "goodbye", some 0⟩
  else
    let primaryIntent := (understand_question_intent transcription).1
    let verseResults :=
      find_relevant_verses faissAvailable faissSearch gitaRows hasChapterCols
        fallbackChoice transcription 3
    let responseText :=
      generate_contextual_response transcription verseResults primaryIntent ++
        "\n\n" ++ FOLLOW_UP_PHRASES.getD (followChoice % 4) ""
    let audioBytes := synthesize_speech hasPiperVoice piperSynth responseText
    ⟨200, none, some transcription, some responseText, audioHexOpt audioBytes,
      some false, some primaryIntent, some verseResults.length⟩

/-- `/process_audio` of server_faiss_semantic.py (lines 375-432).  The
Whisper transcription (including the float32 normalization of the
samples) is the external `whisperTranscribe`. -/
def processAudioFS (audioData : List Nat) (whisperTranscribe : List Int → String)
    (faissAvailable : Bool) (faissSearch : String → Nat → Option (List (Int × Int)))
    (gitaRows : List GitaRow) (hasChapterCols : Bool)
    (fallbackChoice followChoice : Nat)
    (hasPiperVoice : Bool) (piperSynth : String → Option (List Nat)) : FSResult :=
  if audioData.isEmpty then
    ⟨400, some "No audio data", none, none, none, none, none, none⟩
  else
    match frombufferInt16 (trimOddByte audioData) with
    | none =>
      ⟨500, some "buffer size must be a multiple of element size", none, none, none,
        none, none, none⟩
    | some samples =>
      fsTurn (pyStripStr (whisperTranscribe samples)) faissAvailable faissSearch
        gitaRows hasChapterCols fallbackChoice followChoice hasPiperVoice piperSynth

/-! ## Theorems -/

/-- Helper for C1: with running total `total`, the entries appended by the
accumulation loop have total length at most `maxC - total`. -/
theorem accumGo_sum_le (l : List (Nat × Int × String)) :
    ∀ total maxC : Nat, sumLens (accumGo l total maxC) ≤ maxC - total := by
  induction l with
  | nil => intro total maxC; simp [accumGo, sumLens]
  | cons hd rest ih =>
    intro total maxC
    obtain ⟨i, s, t⟩ := hd
    simp only [accumGo]
    split
    · simp [sumLens]
    · rename_i h
      have h2 := ih (total + (entryString i s t).length) maxC
      simp only [sumLens, List.map_cons, List.sum_cons] at h2 ⊢
      omega

/-- Helper for C1: the appended entries are the formatted images of a
prefix of the retrieved list, and if the loop stopped early then already
the next entry overflows the budget. -/
theorem accumGo_prefix (l : List (Nat × Int × String)) :
    ∀ total maxC : Nat, ∃ n,
      accumGo l total maxC = (l.take n).map (fun p => entryString p.1 p.2.1 p.2.2) ∧
        (n < l.length →
          maxC < total + sumLens ((l.take (n + 1)).map (fun p => entryString p.1 p.2.1 p.2.2))) := by
  induction l with
  | nil =>
    intro total maxC
    exact ⟨0, by simp [accumGo], by simp⟩
  | cons hd rest ih =>
    intro total maxC
    obtain ⟨i, s, t⟩ := hd
    by_cases h : maxC < total + (entryString i s t).length
    · refine ⟨0, by simp [accumGo, h], fun _ => ?_⟩
      simpa [sumLens] using h
    · obtain ⟨n, h1, h2⟩ := ih (total + (entryString i s t).length) maxC
      refine ⟨n + 1, by simp [accumGo, h, h1], fun hlt => ?_⟩
      have h3 := h2 (by simpa using Nat.lt_of_succ_lt_succ hlt)
      simp only [List.take_succ_cons, List.map_cons, sumLens, List.sum_cons] at h3 ⊢
      omega

/-- C1: for every query, retrieved list and budget, the total length of the
formatted entries that `make_prompt` includes in its CONTEXT block never
exceeds `max_context_chars`; the included entries are the formatted images
of a rank prefix of the retrieved list, and when an entry is excluded
(the loop broke early), already that first excluded entry would push the
running total over the budget, so it and all later entries are dropped. -/
theorem make_prompt_context_budget (retrieved : List (Nat × Int × String))
    (maxContextChars : Nat) :
    sumLens (contextEntries retrieved maxContextChars) ≤ maxContextChars ∧
      ∃ n, contextEntries retrieved maxContextChars =
          (retrieved.take n).map (fun p => entryString p.1 p.2.1 p.2.2) ∧
        (n < retrieved.length →
          maxContextChars <
            sumLens ((retrieved.take (n + 1)).map (fun p => entryString p.1 p.2.1 p.2.2))) := by
  constructor
  · simpa using accumGo_sum_le retrieved 0 maxContextChars
  · simpa using accumGo_prefix retrieved 0 maxContextChars

/-- C2 (code bug): `clean_response_text` is not idempotent.  On
"a CONTEXT: x USER QUERY: y Answer: b" the scaffold-removal pass (which
runs after the whitespace-collapsing and strip passes) deletes the span
between "a " and " b" and leaves a double space, which a second
application collapses: the first pass returns "a  b", the second "a b". -/
theorem clean_response_text_not_idempotent :
    clean_response_text (clean_response_text "a CONTEXT: x USER QUERY: y Answer: b") ≠
        clean_response_text "a CONTEXT: x USER QUERY: y Answer: b" ∧
      clean_response_text "a CONTEXT: x USER QUERY: y Answer: b" = "a  b" ∧
      clean_response_text "a  b" = "a b" := by
  refine ⟨by decide, by decide, by decide⟩

/-- C3: on the documented example input, `clean_response_text` removes the
parenthesis- and bracket-style citations and the asterisks, collapses the
leftover whitespace runs, and trims, giving exactly "Action matters. Do
it.". -/
theorem clean_response_text_example :
    clean_response_text "Action (id=12, score=0.8421) matters. *Do* it. [id=7]" =
      "Action matters. Do it." := by decide

/-- C6: a query that strips to the empty string makes `retrieve` return the
empty list, for every search black box (hence without invoking the encoder
or the index), every corpus and every `top_k`. -/
theorem retrieve_blank_query (query : String) (hq : pyStripStr query = "")
    (searchFn : String → Nat → List (Int × Int)) (textsList : List String) (topK : Nat) :
    retrieve query searchFn textsList topK = [] := by
  simp [retrieve, hq]

/-- Witness for C6 at the empty and at a whitespace-only query. -/
theorem retrieve_blank_query_witness :
    retrieve "" (fun _ _ => [((0 : Int), (0 : Int))]) ["x"] 5 = [] ∧
      retrieve "   " (fun _ _ => [((0 : Int), (0 : Int))]) ["x"] 5 = [] :=
  ⟨retrieve_blank_query "" (by decide) (fun _ _ => [((0 : Int), (0 : Int))]) ["x"] 5,
   retrieve_blank_query "   " (by decide) (fun _ _ => [((0 : Int), (0 : Int))]) ["x"] 5⟩

/-- C9 counterexample: in the state where only the Whisper model is loaded
but the embedder and the FAISS index are not, the `models_loaded` field is
true while not all models required to serve a turn are initialized, so the
claimed equivalence fails. -/
theorem health_models_loaded_counterexample :
    ¬ (healthModelsLoaded ⟨true, false, false⟩ = true ↔
        specAllModelsLoaded ⟨true, false, false⟩ = true) := by decide

/-- C9 (amended): the `models_loaded` field of `/health` is true exactly
when the Whisper transcription model is loaded; the embedding encoder and
the vector index are not consulted. -/
theorem health_models_loaded_iff_whisper (s : ServerModels) :
    healthModelsLoaded s = true ↔ s.whisperLoaded = true := Iff.rfl

/-- Helper for C10: int16 decoding produces one sample per byte pair,
discarding a trailing unpaired byte. -/
theorem decodeInt16LE_length (l : List Nat) : (decodeInt16LE l).length = l.length / 2 := by
  match l with
  | [] => rfl
  | [_] =>
    simp [decodeInt16LE]
  | a :: b :: rest =>
    simp only [decodeInt16LE, List.length_cons, decodeInt16LE_length rest]
    omega

/-- C10: for every non-empty request body, the odd-byte trim makes the
int16 decode succeed (no error raised) and the number of decoded samples
is `⌊n / 2⌋` for a body of `n` bytes. -/
theorem odd_byte_trim_decodes (bytes : List Nat) (h : bytes ≠ []) :
    frombufferInt16 (trimOddByte bytes) = some (decodeInt16LE (trimOddByte bytes)) ∧
      (decodeInt16LE (trimOddByte bytes)).length = bytes.length / 2 := by
  have hlen : (trimOddByte bytes).length % 2 = 0 ∧
      (trimOddByte bytes).length / 2 = bytes.length / 2 := by
    unfold trimOddByte
    by_cases hp : bytes.length % 2 ≠ 0
    · rw [if_pos hp]
      have hd := List.length_dropLast bytes
      constructor <;> omega
    · rw [if_neg hp]
      constructor <;> omega
  refine ⟨by simp [frombufferInt16, hlen.1], ?_⟩
  rw [decodeInt16LE_length]
  exact hlen.2

/-- Witness for C10 on a three-byte body. -/
theorem odd_byte_trim_decodes_witness :
    ([1, 2, 3] : List Nat) ≠ [] ∧
      (frombufferInt16 (trimOddByte [1, 2, 3]) = some (decodeInt16LE (trimOddByte [1, 2, 3])) ∧
        (decodeInt16LE (trimOddByte [1, 2, 3])).length = ([1, 2, 3] : List Nat).length / 2) :=
  ⟨by decide, odd_byte_trim_decodes [1, 2, 3] (by decide)⟩

/-- C7: for a non-blank query, `retrieve` returns at most `top_k` results
(given FAISS's contract of returning at most `top_k` neighbour pairs),
every returned passage id is a valid position in the corpus (out-of-range
search positions are filtered out), and each result's text is the corpus
text stored at its id. -/
theorem retrieve_result_bounds (query : String)
    (searchFn : String → Nat → List (Int × Int)) (textsList : List String) (topK : Nat)
    (hq : pyStripStr query ≠ "") (hk : (searchFn query topK).length ≤ topK) :
    (retrieve query searchFn textsList topK).length ≤ topK ∧
      ∀ r ∈ retrieve query searchFn textsList topK,
        r.1 < textsList.length ∧ textsList.get? r.1 = some r.2.2 := by
  have h1 : query ≠ "" := by
    intro h
    apply hq
    subst h
    rfl
  have h2 : retrieve query searchFn textsList topK =
      retrieveFilter textsList (searchFn query topK) := by
    simp [retrieve, h1, hq]
  rw [h2]
  constructor
  · exact le_trans (List.length_filterMap_le _ _) hk
  · intro r hr
    rw [retrieveFilter, List.mem_filterMap] at hr
    obtain ⟨a, _, hfa⟩ := hr
    by_cases h0 : (0 : Int) ≤ a.1
    · rw [if_pos h0, Option.map_eq_some'] at hfa
      obtain ⟨t, hget, rfl⟩ := hfa
      obtain ⟨hlt, _⟩ := List.get?_eq_some.mp hget
      exact ⟨hlt, hget⟩
    · rw [if_neg h0] at hfa
      exact absurd hfa (by simp)

/-- Witness for C7 on a concrete search result containing an in-range, an
out-of-range and a negative (padding) position. -/
theorem retrieve_result_bounds_witness :
    (retrieve "hello"
        (fun _ _ => [((0 : Int), (9000 : Int)), ((7 : Int), (100 : Int)), ((-3 : Int), (5 : Int))])
        ["alpha", "beta"] 3).length ≤ 3 ∧
      ∀ r ∈ retrieve "hello"
          (fun _ _ => [((0 : Int), (9000 : Int)), ((7 : Int), (100 : Int)), ((-3 : Int), (5 : Int))])
          ["alpha", "beta"] 3,
        r.1 < (["alpha", "beta"] : List String).length ∧
          (["alpha", "beta"] : List String).get? r.1 = some r.2.2 :=
  retrieve_result_bounds "hello"
    (fun _ _ => [((0 : Int), (9000 : Int)), ((7 : Int), (100 : Int)), ((-3 : Int), (5 : Int))])
    ["alpha", "beta"] 3 (by decide) (by decide)

/-- C4: if the Ollama backend and the transformers fallback both raise,
`safe_generate` returns the fixed apology string instead of propagating an
error, and a `/process_audio` turn that reaches generation still completes
with HTTP 200 and that exact string as the cleaned `response` field (the
cleaner leaves the apology unchanged). -/
theorem generation_double_failure_apology
    (audioBytes : List Nat) (direct file : Except String String) (t : String)
    (hasOllama : Bool) (ollamaGen transformersGen : String → Option String)
    (searchFn : String → Nat → List (Int × Int)) (textsList : List String)
    (hasPiper : Bool) (piperTts pyTts sapiTts : String → Option (List Nat))
    (ha : audioBytes ≠ []) (he : audioBytes.length % 2 = 0)
    (ht : transcribeStep direct file = .ok t)
    (hog : ∀ p, ollamaGen p = none) (htg : ∀ p, transformersGen p = none) :
    (∀ p, safe_generate hasOllama (ollamaGen p) (transformersGen p) = apologyText) ∧
      (processAudioMain true audioBytes direct file hasOllama ollamaGen transformersGen
          searchFn textsList hasPiper piperTts pyTts sapiTts).status = 200 ∧
      (processAudioMain true audioBytes direct file hasOllama ollamaGen transformersGen
          searchFn textsList hasPiper piperTts pyTts sapiTts).response = some apologyText := by
  have hsg : ∀ p, safe_generate hasOllama (ollamaGen p) (transformersGen p) = apologyText := by
    intro p
    rw [hog, htg]
    cases hasOllama <;> rfl
  have hclean : clean_response_text apologyText = apologyText := by decide
  have hne : audioBytes.isEmpty = false := by
    simpa [List.isEmpty_iff] using ha
  have hpm : processAudioMain true audioBytes direct file hasOllama ollamaGen transformersGen
      searchFn textsList hasPiper piperTts pyTts sapiTts =
      ⟨200, none, some (pyStripStr t),
        some apologyText, some apologyText,
        some (formattedSummary apologyText
          (retrieve (pyStripStr t) searchFn textsList 5)),
        audioHexOpt (generate_tts_audio "piper" hasPiper (piperTts apologyText)
          (pyTts apologyText) (sapiTts apologyText))⟩ := by
    simp only [processAudioMain, Bool.not_true, Bool.false_eq_true, if_false, hne,
      frombufferInt16, he, if_pos, ht, hsg, hclean]
  rw [hpm]
  exact ⟨hsg, rfl, rfl⟩

/-- Witness for C4: both generators raise, the turn returns 200 and the
apology as the response. -/
theorem generation_double_failure_apology_witness :
    (∀ _p : String, safe_generate true none none = apologyText) ∧
      (processAudioMain true [0, 0] (.ok "hi") (.error "e") true (fun _ => none) (fun _ => none)
          (fun _ _ => []) [] false (fun _ => none) (fun _ => none) (fun _ => none)).status = 200 ∧
      (processAudioMain true [0, 0] (.ok "hi") (.error "e") true (fun _ => none) (fun _ => none)
          (fun _ _ => []) [] false (fun _ => none) (fun _ => none) (fun _ => none)).response =
        some apologyText :=
  generation_double_failure_apology [0, 0] (.ok "hi") (.error "e") "hi" true
    (fun _ => none) (fun _ => none) (fun _ _ => []) [] false
    (fun _ => none) (fun _ => none) (fun _ => none)
    (by decide) (by decide) rfl (fun _ => rfl) (fun _ => rfl)

/-- C5: if the Piper, pyttsx3 and SAPI synthesis backends all fail,
`generate_tts_audio` returns `None`, and the `/process_audio` turn still
returns HTTP 200 with a null `audio` field: synthesis failure never fails
the turn. -/
theorem tts_all_backends_fail_audio_null
    (audioBytes : List Nat) (direct file : Except String String) (t : String)
    (hasOllama : Bool) (ollamaGen transformersGen : String → Option String)
    (searchFn : String → Nat → List (Int × Int)) (textsList : List String)
    (hasPiper : Bool) (piperTts pyTts sapiTts : String → Option (List Nat))
    (ha : audioBytes ≠ []) (he : audioBytes.length % 2 = 0)
    (ht : transcribeStep direct file = .ok t)
    (hpi : ∀ s, piperTts s = none) (hpy : ∀ s, pyTts s = none) (hsa : ∀ s, sapiTts s = none) :
    (∀ s, generate_tts_audio "piper" hasPiper (piperTts s) (pyTts s) (sapiTts s) = none) ∧
      (processAudioMain true audioBytes direct file hasOllama ollamaGen transformersGen
          searchFn textsList hasPiper piperTts pyTts sapiTts).status = 200 ∧
      (processAudioMain true audioBytes direct file hasOllama ollamaGen transformersGen
          searchFn textsList hasPiper piperTts pyTts sapiTts).audio = none := by
  have htts : ∀ s, generate_tts_audio "piper" hasPiper (piperTts s) (pyTts s) (sapiTts s) = none := by
    intro s
    rw [hpi, hpy, hsa]
    cases hasPiper <;> rfl
  have hne : audioBytes.isEmpty = false := by
    simpa [List.isEmpty_iff] using ha
  have hpm : (processAudioMain true audioBytes direct file hasOllama ollamaGen transformersGen
      searchFn textsList hasPiper piperTts pyTts sapiTts).status = 200 ∧
      (processAudioMain true audioBytes direct file hasOllama ollamaGen transformersGen
        searchFn textsList hasPiper piperTts pyTts sapiTts).audio = none := by
    simp only [processAudioMain, Bool.not_true, Bool.false_eq_true, if_false, hne,
      frombufferInt16, he, if_pos, ht, htts, audioHexOpt]
    exact ⟨trivial, trivial⟩
  exact ⟨htts, hpm.1, hpm.2⟩

/-- Witness for C5: all three synthesis backends raise, the turn returns
200 with null audio. -/
theorem tts_all_backends_fail_audio_null_witness :
    (∀ _s : String, generate_tts_audio "piper" true none none none = none) ∧
      (processAudioMain true [0, 0] (.ok "hi there") (.error "e") false (fun _ => some "answer")
          (fun _ => none) (fun _ _ => []) [] true (fun _ => none) (fun _ => none)
          (fun _ => none)).status = 200 ∧
      (processAudioMain true [0, 0] (.ok "hi there") (.error "e") false (fun _ => some "answer")
          (fun _ => none) (fun _ _ => []) [] true (fun _ => none) (fun _ => none)
          (fun _ => none)).audio = none :=
  tts_all_backends_fail_audio_null [0, 0] (.ok "hi there") (.error "e") "hi there" false
    (fun _ => some "answer") (fun _ => none) (fun _ _ => []) [] true
    (fun _ => none) (fun _ => none) (fun _ => none)
    (by decide) (by decide) rfl (fun _ => rfl) (fun _ => rfl) (fun _ => rfl)

/-- C8: when the transcription contains an exit phrase as a
case-insensitive substring, the turn takes the farewell path: the result
does not depend on the retrieval black box, the Gita table, or the random
draws (retrieval and generation are skipped), the response is the fixed
farewell text, the farewell is still passed through speech synthesis, and
the turn succeeds. -/
theorem fs_exit_phrase_farewell
    (transcription : String) (fa1 fa2 : Bool)
    (fs1 fs2 : String → Nat → Option (List (Int × Int)))
    (rows1 rows2 : List GitaRow) (hc1 hc2 : Bool) (fb1 fb2 fu1 fu2 : Nat)
    (hp : Bool) (ps : String → Option (List Nat))
    (hexit : EXIT_PHRASES.any
      (fun p => containsSub (pyLowerStr transcription).data p.data) = true) :
    fsTurn transcription fa1 fs1 rows1 hc1 fb1 fu1 hp ps =
        fsTurn transcription fa2 fs2 rows2 hc2 fb2 fu2 hp ps ∧
      (fsTurn transcription fa1 fs1 rows1 hc1 fb1 fu1 hp ps).response = some farewellText ∧
      (fsTurn transcription fa1 fs1 rows1 hc1 fb1 fu1 hp ps).audio =
        audioHexOpt (synthesize_speech hp ps farewellText) ∧
      (fsTurn transcription fa1 fs1 rows1 hc1 fb1 fu1 hp ps).status = 200 ∧
      (fsTurn transcription fa1 fs1 rows1 hc1 fb1 fu1 hp ps).endConversation = some true := by
  have hful : ∀ (fa : Bool) (fs : String → Nat → Option (List (Int × Int)))
      (rows : List GitaRow) (hc : Bool) (fb fu : Nat),
      fsTurn transcription fa fs rows hc fb fu hp ps =
        ⟨200, none, some transcription, some farewellText,
          audioHexOpt (synthesize_speech hp ps farewellText), some true, some "goodbye",
          some 0⟩ := by
    intro fa fs rows hc fb fu
    simp only [fsTurn, hexit, if_true]
  rw [hful fa1 fs1 rows1 hc1 fb1 fu1, hful fa2 fs2 rows2 hc2 fb2 fu2]
  exact ⟨rfl, rfl, rfl, rfl, rfl⟩

/-- Witness for C8 with transcription "Thank You, Krishna" and two
different retrieval/randomness configurations. -/
theorem fs_exit_phrase_farewell_witness :
    fsTurn "Thank You, Krishna" true (fun _ _ => some [((0 : Int), (8000 : Int))]) [] true 0 0
        false (fun _ => none) =
        fsTurn "Thank You, Krishna" false (fun _ _ => none) [⟨"v", "1", "2"⟩] false 3 1
          false (fun _ => none) ∧
      (fsTurn "Thank You, Krishna" true (fun _ _ => some [((0 : Int), (8000 : Int))]) [] true 0 0
          false (fun _ => none)).response = some farewellText ∧
      (fsTurn "Thank You, Krishna" true (fun _ _ => some [((0 : Int), (8000 : Int))]) [] true 0 0
          false (fun _ => none)).audio =
        audioHexOpt (synthesize_speech false (fun _ => none) farewellText) ∧
      (fsTurn "Thank You, Krishna" true (fun _ _ => some [((0 : Int), (8000 : Int))]) [] true 0 0
          false (fun _ => none)).status = 200 ∧
      (fsTurn "Thank You, Krishna" true (fun _ _ => some [((0 : Int), (8000 : Int))]) [] true 0 0
          false (fun _ => none)).endConversation = some true :=
  fs_exit_phrase_farewell "Thank You, Krishna" true false
    (fun _ _ => some [((0 : Int), (8000 : Int))]) (fun _ _ => none)
    [] [⟨"v", "1", "2"⟩] true false 0 3 0 1 false (fun _ => none) (by decide)
